import Mathlib

set_option maxHeartbeats 1000000

/-!
Verification of the generation-request lifecycle layer of the DataMIndAI
front-end: media codecs (base64, WAV container, PCM decoding), the Gemini
error classifier, the video operation poller, the retry countdown, the chat
submit flow and the todo-list operations.

JS strings are modelled as lists of UTF-16 code units (`Nat`), byte buffers
(`Uint8Array`) as lists of `Nat` whose members are below 256.
-/

/-! ## Base64 codec (audio utilities module, `encode` and `decode`)

`encode` builds a binary string from the bytes (`String.fromCharCode`) and
calls `btoa`; `decode` calls `atob` and reads the code units back
(`charCodeAt`).  Both are modelled directly on code-unit lists. -/

/-- Index into the standard base64 alphabet, as the code unit `btoa` emits. -/
def sextetToCode (n : Nat) : Nat :=
  if n < 26 then 65 + n
  else if n < 52 then 97 + (n - 26)
  else if n < 62 then 48 + (n - 52)
  else if n = 62 then 43
  else 47

/-- Code unit of a base64 alphabet character back to its 6-bit value, as
`atob` looks it up. -/
def codeToSextet (c : Nat) : Nat :=
  if 65 ≤ c ∧ c ≤ 90 then c - 65
  else if 97 ≤ c ∧ c ≤ 122 then (c - 97) + 26
  else if 48 ≤ c ∧ c ≤ 57 then (c - 48) + 52
  else if c = 43 then 62
  else 63

/-- `btoa` on a latin1 string given as code units: groups of three bytes map
to four alphabet characters, a short final group is padded with `=` (61). -/
def btoaJs : List Nat → List Nat
  | [] => []
  | [a] => [sextetToCode (a / 4), sextetToCode (a % 4 * 16), 61, 61]
  | [a, b] =>
      [sextetToCode (a / 4), sextetToCode (a % 4 * 16 + b / 16),
       sextetToCode (b % 16 * 4), 61]
  | a :: b :: c :: rest =>
      sextetToCode (a / 4) :: sextetToCode (a % 4 * 16 + b / 16) ::
      sextetToCode (b % 16 * 4 + c / 64) :: sextetToCode (c % 64) :: btoaJs rest

/-- `atob` on well-formed base64 (as produced by `btoa`): each group of four
characters yields three bytes, with `=` padding (code 61) shortening the
final group. -/
def atobJs : List Nat → List Nat
  | a :: b :: c :: d :: rest =>
      if c = 61 then
        [codeToSextet a * 4 + codeToSextet b / 16]
      else if d = 61 then
        [codeToSextet a * 4 + codeToSextet b / 16,
         codeToSextet b % 16 * 16 + codeToSextet c / 4]
      else
        (codeToSextet a * 4 + codeToSextet b / 16) ::
        (codeToSextet b % 16 * 16 + codeToSextet c / 4) ::
        ((codeToSextet c % 4 * 64 + codeToSextet d) :: atobJs rest)
  | _ => []

/-- `encode(bytes)` from the audio utilities module. -/
def encode (bytes : List Nat) : List Nat := btoaJs bytes

/-- `decode(base64)` from the audio utilities module. -/
def decode (base64 : List Nat) : List Nat := atobJs base64

/-! ## WAV container writer (`createWavBlob`, `writeString`) -/

/-- Little-endian bytes produced by `DataView.setUint16` (the value is taken
mod 2^16 by the JS `ToUint16` conversion). -/
def u16le (n : Nat) : List Nat := [n % 256, n / 256 % 256]

/-- Little-endian bytes produced by `DataView.setUint32` (the value is taken
mod 2^32 by the JS `ToUint32` conversion). -/
def u32le (n : Nat) : List Nat :=
  [n % 256, n / 256 % 256, n / 65536 % 256, n / 16777216 % 256]

/-- `writeString(view, offset, str)`: the code units of the string, written
byte by byte at consecutive offsets. -/
def writeString (s : String) : List Nat := s.toList.map Char.toNat

/-- `createWavBlob(pcmData, sampleRate, numChannels)`: the byte contents of
the produced blob.  The `DataView` writes land at the consecutive offsets
0, 4, 8, 12, 16, 20, 22, 24, 28, 32, 34, 36, 40 and the PCM payload is
copied in at offset 44; `bitsPerSample` is the constant 16. -/
def createWavBlob (pcmData : List Nat) (sampleRate numChannels : Nat) : List Nat :=
  writeString ("RIFF") ++ u32le (36 + pcmData.length) ++ writeString ("WAVE") ++
  writeString ("fmt ") ++ u32le 16 ++ u16le 1 ++ u16le numChannels ++
  u32le sampleRate ++ u32le (sampleRate * numChannels * (16 / 8)) ++
  u16le (numChannels * (16 / 8)) ++ u16le 16 ++
  writeString ("data") ++ u32le pcmData.length ++ pcmData

/-- Little-endian value of a byte list. -/
def leVal (l : List Nat) : Nat := l.foldr (fun b acc => b + 256 * acc) 0

/-- The bytes of `w` from offset `off` (length `len`). -/
def bytesAt (w : List Nat) (off len : Nat) : List Nat := (w.drop off).take len

/-- The 16-bit little-endian header field of `w` at byte offset `off`. -/
def read16 (w : List Nat) (off : Nat) : Nat := leVal (bytesAt w off 2)

/-- The 32-bit little-endian header field of `w` at byte offset `off`. -/
def read32 (w : List Nat) (off : Nat) : Nat := leVal (bytesAt w off 4)

/-! ## PCM to float decoding (`decodeAudioData`) -/

/-- A signed 16-bit sample from two little-endian bytes. -/
def int16FromBytes (lo hi : Nat) : Int :=
  if lo + 256 * hi < 32768 then ((lo + 256 * hi : Nat) : Int)
  else ((lo + 256 * hi : Nat) : Int) - 65536

/-- The `k`-th entry of the `Int16Array` view over the byte buffer. -/
def sampleAt (data : List Nat) (k : Nat) : Int :=
  int16FromBytes (data.getD (2 * k) 0) (data.getD (2 * k + 1) 0)

/-- `decodeAudioData`: de-interleaves the interleaved signed 16-bit
little-endian samples per channel and normalises each by 32768.  The sample
count is `⌊bytes/2⌋` (the `Int16Array` view length truncates a trailing odd
byte) and the frame count is `⌊samples/numChannels⌋` (the `AudioBuffer`
length truncates a trailing partial frame, whose out-of-range writes are
dropped). -/
def decodeAudioData (data : List Nat) (numChannels : Nat) : List (List ℚ) :=
  (List.range numChannels).map (fun channel =>
    (List.range (data.length / 2 / numChannels)).map (fun i =>
      ((sampleAt data (i * numChannels + channel) : ℚ) / 32768)))



/-! ## Gemini error classifier (`handleGeminiError`, `getErrorObject`) -/

/-- One entry of a structured API error's `details` list. -/
structure ApiErrorDetail where
  atType : Option String
  retryDelay : Option String
  reason : Option String
deriving DecidableEq

/-- The structured API error object carried under the `error` field of an
API failure response. -/
structure ApiError where
  message : Option String
  status : Option String
  code : Option Int
  details : Option (List ApiErrorDetail)
deriving DecidableEq

/-- The shapes of values thrown at the classifier: an `Error` instance
(`parsed` is the structured error field of the JSON-decoded message when
`JSON.parse` succeeds and the result carries a truthy `error` field,
otherwise `none` -- in both failure modes the classifier ends up on the
same fallback, reading `error.message`), a plain non-null object with or
without a structured `error` field, a bare string, or `null`. -/
inductive GeminiInput where
  | errInstance (message : String) (parsed : Option ApiError)
  | obj (errField : Option ApiError)
  | str (s : String)
  | jsNull
deriving DecidableEq

/-- `getErrorObject(error)?.error`: the structured API error reached by the
classifier, if any (a string or `null` input yields no object; an object
input contributes its own `error` field). -/
def getErrorObject : GeminiInput → Option ApiError
  | .errInstance _ parsed => parsed
  | .obj errField => errField
  | .str _ => none
  | .jsNull => none

/-- `String(error)` respectively `error.message` for the final fallback. -/
def stringOfInput : GeminiInput → String
  | .errInstance m _ => m
  | .obj _ => "[object Object]"
  | .str s => s
  | .jsNull => "null"

/-- The result record of the classifier. -/
structure ParsedError where
  userMessage : String
  shouldResetKey : Option Bool := none
  retryDelay : Option Int := none
deriving DecidableEq

/-- JS `String.prototype.includes` on character lists. -/
def listIncludes : List Char → List Char → Bool
  | _, [] => true
  | [], _ :: _ => false
  | x :: t, needle => needle.isPrefixOf (x :: t) || listIncludes t needle

/-- JS `haystack.includes(needle)`. -/
def strIncludes (haystack needle : String) : Bool :=
  listIncludes haystack.toList needle.toList

/-- JS `String.prototype.toLowerCase` (ASCII). -/
def toLowerStr (s : String) : String := String.mk (s.toList.map Char.toLower)

/-- JS `String.prototype.trim`: strips leading and trailing whitespace. -/
def trimJs (s : String) : String :=
  String.mk (((s.toList.dropWhile Char.isWhitespace).reverse.dropWhile
    Char.isWhitespace).reverse)

/-- JS truthiness of a possibly-absent string (absent and empty are falsy). -/
def truthyStr : Option String → Bool
  | none => false
  | some s => s != ""

/-- JS `a || b || dflt` over possibly-absent strings. -/
def jsOrStr (a b : Option String) (dflt : String) : String :=
  if truthyStr a then a.getD "" else if truthyStr b then b.getD "" else dflt

/-- Decimal value of a digit run. -/
def digitsToNat (l : List Char) : Nat :=
  l.foldl (fun acc ch => acc * 10 + (ch.toNat - 48)) 0

/-- JS `parseInt(s, 10)`: leading whitespace and an optional sign, then a
digit run; `none` models the `NaN` result when no digits follow. -/
def parseIntJs (s : String) : Option Int :=
  let l := s.toList.dropWhile (fun ch => ch = ' ')
  match l with
  | '-' :: rest =>
      let d := rest.takeWhile Char.isDigit
      if d.isEmpty then none else some (-(digitsToNat d : Int))
  | '+' :: rest =>
      let d := rest.takeWhile Char.isDigit
      if d.isEmpty then none else some ((digitsToNat d : Int))
  | _ =>
      let d := l.takeWhile Char.isDigit
      if d.isEmpty then none else some ((digitsToNat d : Int))

/-- JS `s.replace` with an empty replacement: only the first occurrence of the character is removed. -/
def replaceFirst : List Char → Char → List Char
  | [], _ => []
  | x :: t, ch => if x = ch then t else x :: replaceFirst t ch

/-- String version of `replaceFirst`. -/
def replaceFirstS (s : String) (ch : Char) : String :=
  String.mk (replaceFirst s.toList ch)

/-- Rendering of the parsed delay into the rate-limit message (`NaN` when
`parseInt` failed). -/
def numToStr : Option Int → String
  | some n => toString n
  | none => "NaN"

/-- The `find` over `apiError.details` selecting the first detail whose `@type` names `google.rpc.RetryInfo`. -/
def findRetryInfo (details : Option (List ApiErrorDetail)) : Option ApiErrorDetail :=
  (details.getD []).find? (fun d => d.atType == some ("type.googleapis.com/google.rpc.RetryInfo"))

/-- `handleGeminiError`: the error classifier.  The branch order mirrors the
source: quota/rate limit, Imagen billing, invalid or expired key, entity
not found, generic API error, unexpected error.  The `NaN` that
`parseInt` can produce is modelled as `none` (both render as an unusable
delay downstream; the message then shows `NaN`). -/
def handleGeminiError (error : GeminiInput) : ParsedError :=
  match getErrorObject error with
  | some apiError =>
    let message := toLowerStr (apiError.message.getD "")
    let status := apiError.status
    let code := apiError.code
    if status == some ("RESOURCE_EXHAUSTED") || code == some 429 then
      let rdelay := (findRetryInfo apiError.details).bind (fun d => d.retryDelay)
      if truthyStr rdelay then
        let delay := parseIntJs (replaceFirstS (rdelay.getD "") (Char.ofNat 115))
        { userMessage := "You\x27ve hit the API rate limit. Please try again in " ++
            numToStr delay ++ " seconds.",
          retryDelay := delay }
      else
        { userMessage := "You have exceeded your current API quota. Please check your plan and billing details." }
    else if strIncludes message ("imagen api is only accessible to billed users") then
      { userMessage := "The Imagen API is only accessible to users with billing enabled. Please check your project settings and API key." }
    else
      let isInvalidKey := (apiError.details.getD []).any (fun d => d.reason == some ("API_KEY_INVALID"))
      if isInvalidKey || status == some ("INVALID_ARGUMENT") then
        if strIncludes message ("api key expired") then
          { userMessage := "Your API key has expired. Please renew it and try again." }
        else
          { userMessage := "Your API key is not valid. Please check your API key and try again." }
      else if strIncludes message ("requested entity was not found") then
        { userMessage := "Your API key appears to be invalid or is not configured for this feature. Please select a valid key and try again.",
          shouldResetKey := some true }
      else
        { userMessage := "An API error occurred: " ++ jsOrStr apiError.message status ("Unknown error") }
  | none =>
      { userMessage := "An unexpected error occurred: " ++ stringOfInput error }

/-- A structured quota error carrying a RetryInfo detail with delay `"5s"`. -/
def retryDetail : ApiErrorDetail :=
  { atType := some ("type.googleapis.com/google.rpc.RetryInfo"),
    retryDelay := some ("5s"), reason := none }

/-- A structured `RESOURCE_EXHAUSTED` error with a `"5s"` retry detail. -/
def quotaErrWithDelay : ApiError :=
  { message := none, status := some ("RESOURCE_EXHAUSTED"), code := none,
    details := some [retryDetail] }

/-- A structured 429 quota error without any retry detail. -/
def quotaErrNoDelay : ApiError :=
  { message := none, status := none, code := some 429, details := none }


/-! ## Video operation poller (`pollOperation` in the video tool) -/

/-- The slice of a `GenerateVideosOperation` the poller inspects: the done
flag, plus a tag distinguishing operation values. -/
structure Operation where
  done : Bool
  tag : Nat
deriving DecidableEq

/-- The `while (!currentOperation.done)` loop of `pollOperation`: `polls`
counts issued `getVideosOperation` calls (`step`, numbered from 0); a call
that throws is caught and the current operation kept; once `polls` reaches
the bound of 30 with the operation still not done, the loop throws the
timeout error.  The rotating status message is display-only and omitted.
Returns the outcome together with the final value of `polls` (the number of
poll attempts made). -/
def pollLoop (step : Nat → Except Unit Operation) :
    Operation → Nat → Except Unit Operation × Nat
  | cur, polls =>
    if cur.done then (.ok cur, polls)
    else if 30 ≤ polls then (.error (), polls)
    else
      match step polls with
      | .ok next => pollLoop step next (polls + 1)
      | .error _ => pollLoop step cur (polls + 1)
termination_by cur polls => 30 - polls
decreasing_by all_goals omega

/-- `pollOperation(operation, ai)`, with the remote `getVideosOperation`
calls abstracted as the oracle `step`. -/
def pollOperation (step : Nat → Except Unit Operation) (operation : Operation) :
    Except Unit Operation × Nat :=
  pollLoop step operation 0

/-! ## Retry countdown (`setRetryAfter`/`setInterval` in the tools) -/

/-- Countdown-related state of one tool instance: the `retryAfter` seconds,
the ids of interval timers created and not yet cleared, the `timerRef`
holding the most recently created interval id, and the id supply. -/
structure RetryState where
  retryAfter : Nat
  live : List Nat
  timerRef : Option Nat
  nextId : Nat
deriving DecidableEq

/-- `if (timerRef.current) clearInterval(timerRef.current)`. -/
def clearCurrent (s : RetryState) : RetryState :=
  match s.timerRef with
  | none => s
  | some t => { s with live := s.live.filter (fun x => x != t) }

/-- The countdown prologue of a new generation attempt:
`setRetryAfter(0)` followed by clearing the current interval. -/
def disarm (s : RetryState) : RetryState :=
  clearCurrent { s with retryAfter := 0 }

/-- The catch-path arming: `setRetryAfter(delay)` then
`timerRef.current = setInterval(tick, 1000)` creating a fresh interval. -/
def arm (delay : Nat) (s : RetryState) : RetryState :=
  { retryAfter := delay, live := s.live ++ [s.nextId],
    timerRef := some s.nextId, nextId := s.nextId + 1 }

/-- One firing of the interval callback of timer `t`: it fires only while
`t` is live; at a remaining value of at most 1 it clears the current
interval and pins the countdown at 0, otherwise it decrements. -/
def tickFire (t : Nat) (s : RetryState) : RetryState :=
  if t ∈ s.live then
    if s.retryAfter ≤ 1 then clearCurrent { s with retryAfter := 0 }
    else { s with retryAfter := s.retryAfter - 1 }
  else s

/-- Runs the current interval for up to `fuel` one-second ticks, recording
the `retryAfter` value each firing observes. -/
def runTicks : Nat → RetryState → List Nat × RetryState
  | 0, s => ([], s)
  | fuel + 1, s =>
    match s.timerRef with
    | some t =>
      if t ∈ s.live then
        ((s.retryAfter :: (runTicks fuel (tickFire t s)).1),
         (runTicks fuel (tickFire t s)).2)
      else ([], s)
    | none => ([], s)

/-- Only the interval in `timerRef` can still be live (the tools clear the
previous interval before creating a new one). -/
def timerInv (s : RetryState) : Prop :=
  ∀ x ∈ s.live, s.timerRef = some x

/-- The remaining values a countdown armed with `N` shows to its ticks:
`[N, N-1, ..., 1]`. -/
def countdownTrace (N : Nat) : List Nat :=
  (List.range N).reverse.map (fun k => k + 1)

/-! ## Todo list operations (`TodoManager`) -/

/-- A task of a todo list. -/
structure TodoItem where
  id : String
  text : String
  completed : Bool
deriving DecidableEq

/-- Placeholder task used as `getD` default. -/
def defaultTodo : TodoItem := { id := "", text := "", completed := false }

/-- `handleAddTask`: appends a task whose id is derived from `Date.now()`
(passed here as `now`); blank input is rejected. -/
def handleAddTask (tasks : List TodoItem) (newTaskText : String) (now : Nat) :
    List TodoItem :=
  if trimJs newTaskText = "" then tasks
  else tasks ++ [{ id := "task-" ++ toString now, text := trimJs newTaskText,
                   completed := false }]

/-- `handleToggleComplete`: maps over the list negating the completed flag
of tasks with the given id. -/
def handleToggleComplete (tasks : List TodoItem) (taskId : String) :
    List TodoItem :=
  tasks.map (fun task =>
    if task.id = taskId then { task with completed := !task.completed } else task)

/-- `handleDeleteTask`: keeps the tasks whose id differs. -/
def handleDeleteTask (tasks : List TodoItem) (taskId : String) : List TodoItem :=
  tasks.filter (fun task => task.id != taskId)

/-- `handleEditTask`: with no task in edit mode or blank text the list is
left alone; otherwise the edited task's text is replaced in place. -/
def handleEditTask (tasks : List TodoItem) (editingTaskId : Option String)
    (editingTaskText : String) : List TodoItem :=
  match editingTaskId with
  | none => tasks
  | some tid =>
    if trimJs editingTaskText = "" then tasks
    else tasks.map (fun task =>
      if task.id = tid then { task with text := trimJs editingTaskText } else task)

/-- Concrete tasks for witnesses. -/
def todo0 : TodoItem := { id := "task-0", text := "a", completed := false }

/-- Concrete tasks for witnesses. -/
def todo1 : TodoItem := { id := "task-1", text := "b", completed := true }

/-! ## Chat submit flow (`handleSubmit` in the chat tool) -/

/-- A grounding source attached to a model reply. -/
structure WebSource where
  uri : String
  title : String
deriving DecidableEq

/-- A chat transcript entry. -/
structure ChatMessage where
  role : String
  text : String
  imageUrl : Option String := none
  sources : Option (List WebSource) := none
deriving DecidableEq

/-- A selected image attachment (MIME type and base64 payload). -/
structure ImageFile where
  ftype : String
  base64 : String
deriving DecidableEq

/-- The optimistically-added user message. -/
def mkUserMessage (input : String) (imageFile : Option ImageFile) : ChatMessage :=
  { role := "user", text := input,
    imageUrl := imageFile.map (fun f => "data:" ++ f.ftype ++ ";base64," ++ f.base64) }

/-- `currentInput.trim().toLowerCase().startsWith(...)` for the image
command. -/
def isCreateCommand (input : String) : Bool :=
  (("/create ").toList).isPrefixOf (toLowerStr (trimJs input)).toList

/-- `currentInput.trim().substring(8)`. -/
def imagePromptOf (input : String) : String :=
  String.mk ((trimJs input).toList.drop 8)

/-- The model reply of the image-command path (`/create`): the echo text and
the generated data URI. -/
def imageReplyMessage (input : String) (data : String) : ChatMessage :=
  { role := "model",
    text := "Here is the image you requested for: \"" ++ imagePromptOf input ++ "\"",
    imageUrl := some ("data:image/png;base64," ++ data) }

/-- The model reply of the plain chat path. -/
def chatReplyMessage (replyText : String) (sources : Option (List WebSource)) :
    ChatMessage :=
  { role := "model", text := replyText, sources := sources }

/-- The try-block of `handleSubmit` after the optimistic add, with the two
remote calls abstracted: `imgRes` is the image-generation outcome (throw, a
response without an inline image part, or an inline image payload) and
`chatRes` the chat reply (throw, or text plus grounding sources).  A throw
carries the value later fed to `handleGeminiError`.  The history-store
callbacks are non-throwing collaborators and not modelled. -/
def runChatBody (newMessages : List ChatMessage) (input : String)
    (chatInit : Bool)
    (imgRes : Except GeminiInput (Option String))
    (chatRes : Except GeminiInput (String × Option (List WebSource))) :
    Except GeminiInput (List ChatMessage) :=
  if isCreateCommand input then
    match imgRes with
    | .error e => .error e
    | .ok none => .error (.errInstance ("Image generation failed to return an image.") none)
    | .ok (some data) => .ok (newMessages ++ [imageReplyMessage input data])
  else
    if !chatInit then .error (.errInstance ("Chat session not initialized.") none)
    else
      match chatRes with
      | .error e => .error e
      | .ok (replyText, sources) => .ok (newMessages ++ [chatReplyMessage replyText sources])

/-- `handleSubmit`: guards, optimistic add of the user message, the
try-block, and the catch that surfaces the classified message and removes
the optimistically-added user message (`prev.slice(0, prev.length - 1)`,
i.e. `dropLast`).  Returns the final message list and the error string set,
if any. -/
def handleSubmit (messages : List ChatMessage) (input : String)
    (imageFile : Option ImageFile) (isLoading : Bool) (retryAfter : Nat)
    (hasApiKey : Bool) (chatInit : Bool)
    (imgRes : Except GeminiInput (Option String))
    (chatRes : Except GeminiInput (String × Option (List WebSource))) :
    List ChatMessage × Option String :=
  if trimJs input = "" ∨ isLoading ∨ 0 < retryAfter then (messages, none)
  else if !hasApiKey then (messages, some ("API key is not configured."))
  else
    match runChatBody (messages ++ [mkUserMessage input imageFile]) input
        chatInit imgRes chatRes with
    | .ok finalMessages => (finalMessages, none)
    | .error e =>
        ((messages ++ [mkUserMessage input imageFile]).dropLast,
         some ("Failed to get response: " ++ (handleGeminiError e).userMessage))

/-! ## Theorems -/

theorem codeToSextet_sextetToCode (n : Nat) (h : n < 64) :
    codeToSextet (sextetToCode n) = n := by
  unfold sextetToCode codeToSextet
  split_ifs <;> omega

theorem sextetToCode_ne_61 (n : Nat) (h : n < 64) : sextetToCode n ≠ 61 := by
  unfold sextetToCode
  split_ifs <;> omega

theorem atobJs_btoaJs : ∀ l : List Nat, (∀ x ∈ l, x < 256) →
    atobJs (btoaJs l) = l
  | [], _ => by simp [btoaJs, atobJs]
  | [a], h => by
    have ha : a < 256 := h a (by simp)
    simp only [btoaJs, atobJs, eq_self_iff_true, if_true]
    rw [codeToSextet_sextetToCode _ (by omega), codeToSextet_sextetToCode _ (by omega)]
    simp only [List.cons.injEq, and_true]
    omega
  | [a, b], h => by
    have ha : a < 256 := h a (by simp)
    have hb : b < 256 := h b (by simp)
    have h61 : sextetToCode (b % 16 * 4) ≠ 61 := sextetToCode_ne_61 _ (by omega)
    simp only [btoaJs, atobJs, if_neg h61, eq_self_iff_true, if_true]
    rw [codeToSextet_sextetToCode _ (by omega), codeToSextet_sextetToCode _ (by omega),
      codeToSextet_sextetToCode _ (by omega)]
    simp only [List.cons.injEq, and_true]
    omega
  | a :: b :: c :: rest, h => by
    have ha : a < 256 := h a (by simp)
    have hb : b < 256 := h b (by simp)
    have hc : c < 256 := h c (by simp)
    have h61c : sextetToCode (b % 16 * 4 + c / 64) ≠ 61 := sextetToCode_ne_61 _ (by omega)
    have h61d : sextetToCode (c % 64) ≠ 61 := sextetToCode_ne_61 _ (by omega)
    have hrec := atobJs_btoaJs rest (fun x hx => h x (by simp [hx]))
    simp only [btoaJs, atobJs, if_neg h61c, if_neg h61d, hrec]
    rw [codeToSextet_sextetToCode _ (by omega), codeToSextet_sextetToCode _ (by omega),
      codeToSextet_sextetToCode _ (by omega), codeToSextet_sextetToCode _ (by omega)]
    simp only [List.cons.injEq, and_true]
    omega

/-- Claim C2: for every byte sequence `b`, decoding the base64 encoding of
`b` recovers every byte and the length of `b` exactly:
`base64Decode(base64Encode(b)) == b`. -/
theorem decode_encode_roundtrip (b : List Nat) (h : ∀ x ∈ b, x < 256) :
    decode (encode b) = b :=
  atobJs_btoaJs b h

/-- Witness for claim C2 at the concrete byte sequence `[0, 255, 17, 61]`. -/
theorem decode_encode_roundtrip_witness :
    (∀ x ∈ [0, 255, 17, 61], x < 256) ∧ decode (encode [0, 255, 17, 61]) = [0, 255, 17, 61] :=
  ⟨by decide, decode_encode_roundtrip [0, 255, 17, 61] (by decide)⟩
theorem writeString_RIFF : writeString ("RIFF") = [82, 73, 70, 70] := rfl

theorem writeString_WAVE : writeString ("WAVE") = [87, 65, 86, 69] := rfl

theorem writeString_fmt : writeString ("fmt ") = [102, 109, 116, 32] := rfl

theorem writeString_data : writeString ("data") = [100, 97, 116, 97] := rfl

theorem createWavBlob_eq (p : List Nat) (r c : Nat) :
    createWavBlob p r c =
    [82, 73, 70, 70,
     (36 + p.length) % 256, (36 + p.length) / 256 % 256,
     (36 + p.length) / 65536 % 256, (36 + p.length) / 16777216 % 256,
     87, 65, 86, 69,
     102, 109, 116, 32,
     16, 0, 0, 0,
     1, 0,
     c % 256, c / 256 % 256,
     r % 256, r / 256 % 256, r / 65536 % 256, r / 16777216 % 256,
     (r * c * 2) % 256, (r * c * 2) / 256 % 256,
     (r * c * 2) / 65536 % 256, (r * c * 2) / 16777216 % 256,
     (c * 2) % 256, (c * 2) / 256 % 256,
     16, 0,
     100, 97, 116, 97,
     p.length % 256, p.length / 256 % 256,
     p.length / 65536 % 256, p.length / 16777216 % 256] ++ p := rfl

theorem leVal_u16le (n : Nat) (h : n < 65536) : leVal (u16le n) = n := by
  simp [leVal, u16le]
  omega

theorem leVal_u32le (n : Nat) (h : n < 4294967296) : leVal (u32le n) = n := by
  simp [leVal, u32le]
  omega

/-- Counterexample to claim C1 as stated: the claim quantifies over every
channel count, but the 16-bit header write truncates, so for channel count
65536 bytes 22-23 decode to 0 and the channel count is not recoverable. -/
theorem createWavBlob_channel_not_recoverable :
    read16 (createWavBlob [] 8000 65536) 22 ≠ 65536 := by decide

/-- Claim C1 (amended): for every PCM byte buffer `p`, sample rate
`r < 2^32` and channel count `c` such that the derived fields fit their
header slots (`2*c < 2^16`, `r*c*2 < 2^32`, `36 + len(p) < 2^32`),
`createWavBlob p r c` has length `44 + len(p)`, carries exactly the
little-endian RIFF layout of the spec, is followed by `p` itself from byte
44 on, and `r` and `c` are recoverable exactly from the header. -/
theorem createWavBlob_header (p : List Nat) (r c : Nat)
    (hc : 2 * c < 65536) (hr : r < 4294967296)
    (hbr : r * c * 2 < 4294967296) (hlen : 36 + p.length < 4294967296) :
    (createWavBlob p r c).length = 44 + p.length ∧
    bytesAt (createWavBlob p r c) 0 4 = writeString ("RIFF") ∧
    read32 (createWavBlob p r c) 4 = 36 + p.length ∧
    bytesAt (createWavBlob p r c) 8 4 = writeString ("WAVE") ∧
    bytesAt (createWavBlob p r c) 12 4 = writeString ("fmt ") ∧
    read32 (createWavBlob p r c) 16 = 16 ∧
    read16 (createWavBlob p r c) 20 = 1 ∧
    read16 (createWavBlob p r c) 22 = c ∧
    read32 (createWavBlob p r c) 24 = r ∧
    read32 (createWavBlob p r c) 28 = r * c * 2 ∧
    read16 (createWavBlob p r c) 32 = c * 2 ∧
    read16 (createWavBlob p r c) 34 = 16 ∧
    bytesAt (createWavBlob p r c) 36 4 = writeString ("data") ∧
    read32 (createWavBlob p r c) 40 = p.length ∧
    List.drop 44 (createWavBlob p r c) = p := by
  rw [createWavBlob_eq]
  refine ⟨?_, rfl, ?_, rfl, rfl, rfl, rfl, ?_, ?_, ?_, ?_, rfl, rfl, ?_, rfl⟩
  · simp only [List.length_append, List.length_cons, List.length_nil]
  · exact leVal_u32le (36 + p.length) hlen
  · exact leVal_u16le c (by omega)
  · exact leVal_u32le r hr
  · exact leVal_u32le (r * c * 2) hbr
  · exact leVal_u16le (c * 2) (by omega)
  · exact leVal_u32le p.length (by omega)

/-- Witness for the amended claim C1 at `p = [1, 2]`, `r = 24000`, `c = 1`. -/
theorem createWavBlob_header_witness :
    read16 (createWavBlob [1, 2] 24000 1) 22 = 1 ∧
    read32 (createWavBlob [1, 2] 24000 1) 24 = 24000 ∧
    (createWavBlob [1, 2] 24000 1).length = 44 + 2 := by
  obtain ⟨h1, _, _, _, _, _, _, h8, h9, _, _, _, _, _, _⟩ :=
    createWavBlob_header [1, 2] 24000 1 (by decide) (by decide) (by decide) (by decide)
  exact ⟨h8, h9, h1⟩

theorem getD_lt_of_forall (l : List Nat) (h : ∀ x ∈ l, x < 256) (j : Nat) :
    l.getD j 0 < 256 := by
  rcases Nat.lt_or_ge j l.length with hj | hj
  · rw [List.getD_eq_getElem l 0 hj]
    exact h _ (List.getElem_mem hj)
  · rw [List.getD_eq_default l 0 hj]
    omega

theorem sampleAt_range (data : List Nat) (hb : ∀ x ∈ data, x < 256) (k : Nat) :
    -32768 ≤ sampleAt data k ∧ sampleAt data k < 32768 := by
  have hlo := getD_lt_of_forall data hb (2 * k)
  have hhi := getD_lt_of_forall data hb (2 * k + 1)
  unfold sampleAt int16FromBytes
  split_ifs <;> omega

theorem normSample_range (s : Int) (h1 : -32768 ≤ s) (h2 : s < 32768) :
    -1 ≤ (s : ℚ) / 32768 ∧ (s : ℚ) / 32768 < 1 := by
  constructor
  · rw [le_div_iff (by norm_num : (0 : ℚ) < 32768)]
    have hq : (-32768 : ℚ) ≤ (s : ℚ) := by exact_mod_cast h1
    linarith
  · rw [div_lt_one (by norm_num : (0 : ℚ) < 32768)]
    exact_mod_cast h2

/-- Claim C9: `decodeAudioData` reads the buffer as interleaved signed
16-bit little-endian samples, de-interleaves per channel and normalises by
32768: it yields `c` channels, each of `⌊⌊len/2⌋/c⌋` frames (trailing
partial frames discarded, never a failure), channel `ch` frame `i` holds
sample `i*c+ch` divided by 32768, and every output value is in `[-1, 1)`. -/
theorem decodeAudioData_spec (data : List Nat) (c : Nat)
    (hc : 1 ≤ c) (hb : ∀ x ∈ data, x < 256) :
    (decodeAudioData data c).length = c ∧
    (∀ chan ∈ decodeAudioData data c, chan.length = data.length / 2 / c) ∧
    (∀ ch, ch < c → ∀ i, i < data.length / 2 / c →
      ((decodeAudioData data c).getD ch []).getD i 0 =
        (sampleAt data (i * c + ch) : ℚ) / 32768) ∧
    (∀ chan ∈ decodeAudioData data c, ∀ v ∈ chan, -1 ≤ v ∧ v < 1) := by
  refine ⟨?_, ?_, ?_, ?_⟩
  · simp [decodeAudioData]
  · intro chan hchan
    simp only [decodeAudioData, List.mem_map, List.mem_range] at hchan
    obtain ⟨ch, _, rfl⟩ := hchan
    simp
  · intro ch hch i hi
    have h1 : ch < ((List.range c).map (fun channel =>
        (List.range (data.length / 2 / c)).map (fun i =>
          ((sampleAt data (i * c + channel) : ℚ) / 32768)))).length := by
      simpa using hch
    simp only [decodeAudioData]
    rw [List.getD_eq_getElem _ _ h1]
    rw [List.getElem_map, List.getElem_range]
    have h2 : i < ((List.range (data.length / 2 / c)).map (fun j =>
        ((sampleAt data (j * c + ch) : ℚ) / 32768))).length := by
      simpa using hi
    rw [List.getD_eq_getElem _ _ h2]
    rw [List.getElem_map, List.getElem_range]
  · intro chan hchan v hv
    simp only [decodeAudioData, List.mem_map, List.mem_range] at hchan
    obtain ⟨ch, hch, rfl⟩ := hchan
    simp only [List.mem_map, List.mem_range] at hv
    obtain ⟨i, hi, rfl⟩ := hv
    have hs := sampleAt_range data hb (i * c + ch)
    exact normSample_range _ hs.1 hs.2

/-- Witness for claim C9 at a two-channel three-frame buffer. -/
theorem decodeAudioData_spec_witness :
    (1 ≤ 2 ∧ ∀ x ∈ [0, 0, 255, 127, 0, 128], x < 256) ∧
    (decodeAudioData [0, 0, 255, 127, 0, 128] 2).length = 2 :=
  ⟨⟨by decide, by decide⟩, (decodeAudioData_spec [0, 0, 255, 127, 0, 128] 2 (by decide) (by decide)).1⟩

theorem length_append_pos (s t : String) (h : 0 < s.length) :
    0 < (s ++ t).length := by
  rw [String.length_append]
  omega

/-- Claim C3: for every input value of any of the shapes the classifier can
receive, `handleGeminiError` terminates normally (it is a total function)
and returns a result carrying a non-empty `userMessage` string. -/
theorem handleGeminiError_total (e : GeminiInput) :
    0 < (handleGeminiError e).userMessage.length := by
  unfold handleGeminiError
  split
  · dsimp only
    split_ifs <;>
      first
        | decide
        | exact length_append_pos _ _ (by decide)
        | exact length_append_pos _ _ (length_append_pos _ _ (by decide))
  · exact length_append_pos _ _ (by decide)

/-- Claim C4: a structured quota error (status `RESOURCE_EXHAUSTED` or code
429) whose first RetryInfo detail carries retry delay `"5s"` yields
`retryDelay = 5` and a message containing `"5"`; such a quota error with no
retry-delay detail yields the quota-exceeded message with no `retryDelay`. -/
theorem handleGeminiError_quota (e : ApiError) :
    ((e.status = some ("RESOURCE_EXHAUSTED") ∨ e.code = some 429) →
      ∀ d, findRetryInfo e.details = some d → d.retryDelay = some ("5s") →
      (handleGeminiError (.obj (some e))).retryDelay = some 5 ∧
      '5' ∈ (handleGeminiError (.obj (some e))).userMessage.toList) ∧
    ((e.status = some ("RESOURCE_EXHAUSTED") ∨ e.code = some 429) →
      (findRetryInfo e.details).bind (fun d => d.retryDelay) = none →
      handleGeminiError (.obj (some e)) =
        { userMessage := "You have exceeded your current API quota. Please check your plan and billing details." }) := by
  constructor
  · intro hq d hfind hdel
    have hcond : (e.status == some ("RESOURCE_EXHAUSTED") || e.code == some 429) = true := by
      rcases hq with h | h <;> simp [h]
    have hres : handleGeminiError (.obj (some e)) =
        { userMessage := "You\x27ve hit the API rate limit. Please try again in " ++
            numToStr (some 5) ++ " seconds.",
          retryDelay := some 5 } := by
      unfold handleGeminiError
      simp only [getErrorObject]
      rw [if_pos hcond, hfind]
      simp only [Option.some_bind]
      rw [hdel]
      decide
    rw [hres]
    exact ⟨rfl, by decide⟩
  · intro hq hnone
    have hcond : (e.status == some ("RESOURCE_EXHAUSTED") || e.code == some 429) = true := by
      rcases hq with h | h <;> simp [h]
    unfold handleGeminiError
    simp only [getErrorObject]
    rw [if_pos hcond, hnone]
    decide

/-- Witness for claim C4: the two concrete structured quota errors. -/
theorem handleGeminiError_quota_witness :
    (handleGeminiError (.obj (some quotaErrWithDelay))).retryDelay = some 5 ∧
    handleGeminiError (.obj (some quotaErrNoDelay)) =
      { userMessage := "You have exceeded your current API quota. Please check your plan and billing details." } :=
  ⟨((handleGeminiError_quota quotaErrWithDelay).1 (Or.inl rfl) retryDetail
      (by decide) (by decide)).1,
   (handleGeminiError_quota quotaErrNoDelay).2 (Or.inr rfl) (by decide)⟩

theorem pollLoop_timeout (step : Nat → Except Unit Operation)
    (hstep : ∀ n o, step n = .ok o → o.done = false) :
    ∀ m (cur : Operation) (polls : Nat), polls + m = 30 → cur.done = false →
      pollLoop step cur polls = (.error (), 30)
  | 0, cur, polls, hpm, hdone => by
    have h30 : polls = 30 := by omega
    subst h30
    rw [pollLoop]
    simp [hdone]
  | m + 1, cur, polls, hpm, hdone => by
    have h30 : ¬ 30 ≤ polls := by omega
    rw [pollLoop]
    simp only [hdone, Bool.false_eq_true, if_false, if_neg h30]
    cases hs : step polls with
    | ok next =>
      exact pollLoop_timeout step hstep m next (polls + 1) (by omega) (hstep _ _ hs)
    | error e =>
      exact pollLoop_timeout step hstep m cur (polls + 1) (by omega) hdone

/-- Claim C5: a poll-step oracle that never reports done drives the poller
into the timeout failure after exactly 30 attempts; an oracle reporting
done on the third attempt makes the poller return that resolved operation
after exactly 3 attempts with later steps never consulted; and a throwing
poll step is swallowed -- the loop carries on and can still succeed (or,
with every step throwing, only the attempt bound ends it, covered by the
first part since its hypothesis is vacuous then). -/
theorem pollOperation_spec :
    (∀ (step : Nat → Except Unit Operation) (op : Operation),
      op.done = false →
      (∀ n o, step n = .ok o → o.done = false) →
      pollOperation step op = (.error (), 30)) ∧
    (∀ (step : Nat → Except Unit Operation) (op o1 o2 o3 : Operation),
      op.done = false →
      step 0 = .ok o1 → o1.done = false →
      step 1 = .ok o2 → o2.done = false →
      step 2 = .ok o3 → o3.done = true →
      pollOperation step op = (.ok o3, 3)) ∧
    (∀ (step : Nat → Except Unit Operation) (op o : Operation),
      op.done = false →
      step 0 = .error () → step 1 = .ok o → o.done = true →
      pollOperation step op = (.ok o, 2)) := by
  refine ⟨?_, ?_, ?_⟩
  · intro step op hdone hstep
    exact pollLoop_timeout step hstep 30 op 0 rfl hdone
  · intro step op o1 o2 o3 h0 hs0 h1 hs1 h2 hs2 h3
    unfold pollOperation
    rw [pollLoop]
    simp only [h0, Bool.false_eq_true, if_false, hs0]
    rw [pollLoop]
    simp only [h1, Bool.false_eq_true, if_false, hs1]
    rw [pollLoop]
    simp only [h2, Bool.false_eq_true, if_false, hs2]
    rw [pollLoop]
    simp [h3]
  · intro step op o h0 hs0 hs1 hdone
    unfold pollOperation
    rw [pollLoop]
    simp only [h0, Bool.false_eq_true, if_false, hs0]
    rw [pollLoop]
    simp only [h0, Bool.false_eq_true, if_false, hs1]
    rw [pollLoop]
    simp [hdone]

/-- The three concrete poll-step oracles of the witness. -/
def stepAlwaysPending : Nat → Except Unit Operation := fun _ => .ok ⟨false, 0⟩

/-- Oracle whose third poll (attempt index 2) reports done. -/
def stepDoneAt2 : Nat → Except Unit Operation := fun n =>
  if n = 2 then .ok ⟨true, 7⟩ else .ok ⟨false, n⟩

/-- Oracle that throws on the first poll and reports done on the second. -/
def stepFailThenDone : Nat → Except Unit Operation := fun n =>
  if n = 0 then .error () else .ok ⟨true, 5⟩

/-- Witness for claim C5 on the three concrete oracles. -/
theorem pollOperation_spec_witness :
    pollOperation stepAlwaysPending ⟨false, 0⟩ = (.error (), 30) ∧
    pollOperation stepDoneAt2 ⟨false, 0⟩ = (.ok ⟨true, 7⟩, 3) ∧
    pollOperation stepFailThenDone ⟨false, 0⟩ = (.ok ⟨true, 5⟩, 2) := by
  refine ⟨?_, ?_, ?_⟩
  · refine pollOperation_spec.1 stepAlwaysPending ⟨false, 0⟩ rfl ?_
    intro n o h
    have h2 : Except.ok (ε := Unit) (⟨false, 0⟩ : Operation) = .ok o := h
    cases h2
    rfl
  · exact pollOperation_spec.2.1 stepDoneAt2 ⟨false, 0⟩ ⟨false, 0⟩ ⟨false, 1⟩ ⟨true, 7⟩
      rfl rfl rfl rfl rfl rfl rfl
  · exact pollOperation_spec.2.2 stepFailThenDone ⟨false, 0⟩ ⟨true, 5⟩ rfl rfl rfl rfl

theorem runTicks_dead (fuel : Nat) (s : RetryState) (h : s.live = []) :
    runTicks fuel s = ([], s) := by
  cases fuel with
  | zero => rfl
  | succ f =>
    rw [runTicks]
    cases ht : s.timerRef with
    | none => rfl
    | some t => simp [h]

theorem runTicks_countdown :
    ∀ (N : Nat), 1 ≤ N → ∀ (t m fuel : Nat), N ≤ fuel →
      runTicks fuel ⟨N, [t], some t, m⟩ =
        (countdownTrace N, ⟨0, [], some t, m⟩)
  | 0, h, _, _, _, _ => absurd h (by omega)
  | 1, _, t, m, fuel, hf => by
    obtain ⟨f, rfl⟩ : ∃ f, fuel = f + 1 := ⟨fuel - 1, by omega⟩
    rw [runTicks]
    simp [tickFire, clearCurrent, runTicks_dead, countdownTrace]
    decide
  | N + 2, _, t, m, fuel, hf => by
    obtain ⟨f, rfl⟩ : ∃ f, fuel = f + 1 := ⟨fuel - 1, by omega⟩
    have hn : ¬ (N + 2 ≤ 1) := by omega
    have hrec := runTicks_countdown (N + 1) (by omega) t m f (by omega)
    rw [runTicks]
    simp only [List.mem_singleton, if_true, tickFire, hn, if_false, eq_self_iff_true]
    simp [hrec, countdownTrace, List.range_succ]

theorem filter_ne_all (t : Nat) : ∀ l : List Nat, (∀ x ∈ l, x = t) →
    l.filter (fun x => x != t) = []
  | [], _ => rfl
  | a :: l, h => by
    have ha : a = t := h a (by simp)
    have hrec := filter_ne_all t l (fun x hx => h x (by simp [hx]))
    simp [List.filter_cons, ha, hrec]

theorem clearCurrent_eq :
    ∀ (s : RetryState), timerInv s →
      clearCurrent s = ⟨s.retryAfter, [], s.timerRef, s.nextId⟩
  | ⟨ra, live, none, ni⟩, hinv => by
    have hl : live = [] := by
      cases hl2 : live with
      | nil => rfl
      | cons a l =>
        have h2 := hinv a (by rw [hl2]; simp)
        simp at h2
    simp [clearCurrent, hl]
  | ⟨ra, live, some t, ni⟩, hinv => by
    have hall : ∀ x ∈ live, x = t := by
      intro x hx
      have h2 := hinv x hx
      simp at h2
      exact h2.symm
    simp [clearCurrent, filter_ne_all t live hall]

theorem disarm_eq (s : RetryState) (hinv : timerInv s) :
    disarm s = ⟨0, [], s.timerRef, s.nextId⟩ := by
  unfold disarm
  rw [clearCurrent_eq { s with retryAfter := 0 } (fun x hx => hinv x hx)]

theorem countdownTrace_succ (N : Nat) :
    countdownTrace (N + 1) = (N + 1) :: countdownTrace N := by
  simp [countdownTrace, List.range_succ]

theorem countdownTrace_length (N : Nat) : (countdownTrace N).length = N := by
  simp [countdownTrace]

theorem countdownTrace_head (N : Nat) :
    (countdownTrace (N + 1)).head? = some (N + 1) := by
  simp [countdownTrace_succ]

theorem countdownTrace_chain (N : Nat) :
    List.Chain' (fun a b => b < a) (countdownTrace N) := by
  induction N with
  | zero => simp [countdownTrace]
  | succ n ih =>
    rw [countdownTrace_succ]
    cases n with
    | zero => simp [countdownTrace]
    | succ m =>
      rw [List.chain'_cons']
      refine ⟨?_, ih⟩
      intro y hy
      rw [countdownTrace_head] at hy
      simp at hy
      omega

theorem countdownTrace_getLast (N : Nat) :
    (countdownTrace (N + 1)).getLast? = some 1 := by
  induction N with
  | zero => decide
  | succ n ih =>
    rw [countdownTrace_succ, countdownTrace_succ, List.getLast?_cons_cons,
      ← countdownTrace_succ]
    exact ih

theorem countdownTrace_pos (N : Nat) : 0 ∉ countdownTrace N := by
  simp [countdownTrace]

/-- Claim C6: arming the retry countdown with delay `N ≥ 1` (after the
prologue that clears any previous timer) makes the interval fire exactly
`N` ticks observing the strictly decreasing remaining values
`[N, ..., 1]`, after which the timer is cleared and the remaining value sits
at 0 -- reached exactly once, no traced value is 0 and no further tick ever
fires; clearing the timer beforehand prevents any tick (hence the expiry)
from ever firing; re-arming while armed first cancels the previous
interval, leaving only the fresh one live. -/
theorem retryCountdown_spec :
    (∀ (s : RetryState) (N fuel : Nat), timerInv s → 1 ≤ N → N ≤ fuel →
      runTicks fuel (arm N (disarm s)) =
        (countdownTrace N, ⟨0, [], some s.nextId, s.nextId + 1⟩) ∧
      (countdownTrace N).length = N ∧
      List.Chain' (fun a b => b < a) (countdownTrace N) ∧
      (countdownTrace N).getLast? = some 1 ∧
      0 ∉ countdownTrace N ∧
      (∀ k, runTicks k (⟨0, [], some s.nextId, s.nextId + 1⟩ : RetryState) =
        ([], ⟨0, [], some s.nextId, s.nextId + 1⟩))) ∧
    (∀ (s : RetryState) (fuel : Nat), timerInv s →
      runTicks fuel (clearCurrent s) = ([], clearCurrent s)) ∧
    (∀ (s : RetryState) (N M : Nat), timerInv s →
      (arm N (disarm s)).timerRef = some s.nextId ∧
      (arm M (disarm (arm N (disarm s)))).live = [s.nextId + 1] ∧
      s.nextId ∉ (arm M (disarm (arm N (disarm s)))).live ∧
      (arm M (disarm (arm N (disarm s)))).timerRef = some (s.nextId + 1)) := by
  refine ⟨?_, ?_, ?_⟩
  · intro s N fuel hinv hN hfuel
    have hd : arm N (disarm s) = ⟨N, [s.nextId], some s.nextId, s.nextId + 1⟩ := by
      rw [disarm_eq s hinv]
      rfl
    refine ⟨?_, countdownTrace_length N, countdownTrace_chain N, ?_,
      countdownTrace_pos N, ?_⟩
    · rw [hd]
      exact runTicks_countdown N hN s.nextId (s.nextId + 1) fuel hfuel
    · obtain ⟨k, rfl⟩ : ∃ k, N = k + 1 := ⟨N - 1, by omega⟩
      exact countdownTrace_getLast k
    · intro k
      exact runTicks_dead k _ rfl
  · intro s fuel hinv
    rw [clearCurrent_eq s hinv]
    exact runTicks_dead fuel _ rfl
  · intro s N M hinv
    have hd := disarm_eq s hinv
    have hinv1 : timerInv (arm N (⟨0, [], s.timerRef, s.nextId⟩ : RetryState)) := by
      intro x hx
      simp [arm] at hx
      simp [arm, hx]
    have h1 : disarm (arm N (⟨0, [], s.timerRef, s.nextId⟩ : RetryState)) =
        ⟨0, [], some s.nextId, s.nextId + 1⟩ := by
      rw [disarm_eq _ hinv1]
      simp [arm]
    refine ⟨by rw [hd]; simp [arm], ?_, ?_, ?_⟩
    · rw [hd, h1]
      simp [arm]
    · rw [hd, h1]
      simp [arm]
    · rw [hd, h1]
      simp [arm]

/-- Witness for claim C6 at a fresh tool state, delay 3 and fuel 5. -/
theorem retryCountdown_spec_witness :
    runTicks 5 (arm 3 (disarm ⟨0, [], none, 0⟩)) =
      (countdownTrace 3, ⟨0, [], some 0, 1⟩) ∧
    runTicks 4 (clearCurrent ⟨7, [0], some 0, 1⟩) =
      ([], clearCurrent ⟨7, [0], some 0, 1⟩) ∧
    (arm 2 (disarm (arm 3 (disarm ⟨0, [], none, 0⟩)))).live = [1] := by
  refine ⟨?_, ?_, ?_⟩
  · exact (retryCountdown_spec.1 ⟨0, [], none, 0⟩ 3 5
      (by intro x hx; simp at hx) (by omega) (by omega)).1
  · exact retryCountdown_spec.2.1 ⟨7, [0], some 0, 1⟩ 4
      (by intro x hx; simp at hx; simp [hx])
  · exact (retryCountdown_spec.2.2 ⟨0, [], none, 0⟩ 3 2
      (by intro x hx; simp at hx)).2.1

theorem runChatBody_ok_shape (newMessages : List ChatMessage) (input : String)
    (chatInit : Bool) (imgRes : Except GeminiInput (Option String))
    (chatRes : Except GeminiInput (String × Option (List WebSource)))
    (finalMessages : List ChatMessage)
    (h : runChatBody newMessages input chatInit imgRes chatRes = .ok finalMessages) :
    ∃ m, finalMessages = newMessages ++ [m] := by
  unfold runChatBody at h
  by_cases hcr : isCreateCommand input = true
  · rw [if_pos hcr] at h
    cases imgRes with
    | error e => simp at h
    | ok o =>
      cases o with
      | none => simp at h
      | some data => exact ⟨_, (Except.ok.inj h).symm⟩
  · rw [if_neg hcr] at h
    by_cases hci : (!chatInit) = true
    · rw [if_pos hci] at h
      simp at h
    · rw [if_neg hci] at h
      cases chatRes with
      | error e => simp at h
      | ok p =>
        cases p with
        | mk replyText sources => exact ⟨_, (Except.ok.inj h).symm⟩

/-- Claim C7: once the chat submit passes its guards, every failure path
removes the optimistically-added user message again -- the final list is
exactly the pre-submission list -- and sets a non-empty error message;
every success path keeps it -- the final list is the prior list plus the
user message plus one model reply. -/
theorem handleSubmit_spec (messages : List ChatMessage) (input : String)
    (imageFile : Option ImageFile) (chatInit : Bool)
    (imgRes : Except GeminiInput (Option String))
    (chatRes : Except GeminiInput (String × Option (List WebSource)))
    (hin : trimJs input ≠ "") :
    (∀ s, (handleSubmit messages input imageFile false 0 true chatInit imgRes chatRes).2 = some s →
      (handleSubmit messages input imageFile false 0 true chatInit imgRes chatRes).1 = messages ∧
      0 < s.length) ∧
    ((handleSubmit messages input imageFile false 0 true chatInit imgRes chatRes).2 = none →
      ∃ m, (handleSubmit messages input imageFile false 0 true chatInit imgRes chatRes).1 =
        messages ++ [mkUserMessage input imageFile, m]) := by
  have hguard : ¬ (trimJs input = "" ∨ (false : Bool) = true ∨ 0 < (0 : Nat)) := by
    simp [hin]
  cases hr : runChatBody (messages ++ [mkUserMessage input imageFile]) input
      chatInit imgRes chatRes with
  | ok finalMessages =>
    have heq : handleSubmit messages input imageFile false 0 true chatInit imgRes chatRes =
        (finalMessages, none) := by
      unfold handleSubmit
      rw [if_neg hguard, if_neg (by simp), hr]
    rw [heq]
    constructor
    · intro s hs
      simp at hs
    · intro _
      obtain ⟨m, hm⟩ := runChatBody_ok_shape _ _ _ _ _ _ hr
      refine ⟨m, ?_⟩
      show finalMessages = messages ++ [mkUserMessage input imageFile, m]
      rw [hm]
      simp
  | error e =>
    have heq : handleSubmit messages input imageFile false 0 true chatInit imgRes chatRes =
        ((messages ++ [mkUserMessage input imageFile]).dropLast,
         some ("Failed to get response: " ++ (handleGeminiError e).userMessage)) := by
      unfold handleSubmit
      rw [if_neg hguard, if_neg (by simp), hr]
    rw [heq]
    constructor
    · intro s hs
      have hs2 : ("Failed to get response: " ++ (handleGeminiError e).userMessage) = s :=
        Option.some.inj hs
      constructor
      · show (messages ++ [mkUserMessage input imageFile]).dropLast = messages
        simp
      · rw [← hs2]
        exact length_append_pos _ _ (by decide)
    · intro hnone
      simp at hnone

/-- Witness for claim C7: a failing submission restores the empty transcript
and a successful one appends user message and reply. -/
theorem handleSubmit_spec_witness :
    trimJs ("boom") ≠ "" ∧
    (handleSubmit [] ("boom") none false 0 true true (Except.error .jsNull)
      (Except.error .jsNull)).1 = [] ∧
    (handleSubmit [] ("hey") none false 0 true true (Except.error .jsNull)
      (Except.ok (("hello", none)))).1 =
      [] ++ [mkUserMessage ("hey") none, chatReplyMessage ("hello") none] := by
  refine ⟨by decide, ?_, ?_⟩
  · exact ((handleSubmit_spec [] ("boom") none true (Except.error .jsNull)
      (Except.error .jsNull) (by decide)).1
      ("Failed to get response: An unexpected error occurred: null") (by decide)).1
  · obtain ⟨m, hm⟩ := (handleSubmit_spec [] ("hey") none true (Except.error .jsNull)
      (Except.ok (("hello", none))) (by decide)).2 (by decide)
    rw [hm]
    have : m = chatReplyMessage ("hello") none := by
      have h2 := hm
      rw [show (handleSubmit [] ("hey") none false 0 true true (Except.error .jsNull)
        (Except.ok (("hello", none)))).1 =
        [mkUserMessage ("hey") none, chatReplyMessage ("hello") none] from by decide] at h2
      simpa using h2.symm
    rw [this]

theorem handleAddTask_breaks_uniqueness :
    ¬ ((handleAddTask [todo0] ("b") 0).map TodoItem.id).Nodup := by decide

/-- Claim C8 (amended): toggling and editing leave the sequence of task ids
entirely unchanged (hence preserve uniqueness and order); deleting keeps
the ids a subsequence (order preserved) and preserves uniqueness; adding
with non-blank text appends at the end, and preserves id uniqueness
provided the freshly generated `task-<now>` id does not already occur.  As
literally stated the claim fails: the generated id is only the timestamp,
so an add at a colliding timestamp duplicates an id (see the
counterexample). -/
theorem todoListInvariants :
    (∀ (tasks : List TodoItem) (taskId : String),
      (handleToggleComplete tasks taskId).map TodoItem.id = tasks.map TodoItem.id) ∧
    (∀ (tasks : List TodoItem) (eid : Option String) (etext : String),
      (handleEditTask tasks eid etext).map TodoItem.id = tasks.map TodoItem.id) ∧
    (∀ (tasks : List TodoItem) (taskId : String),
      ((handleDeleteTask tasks taskId).map TodoItem.id).Sublist (tasks.map TodoItem.id) ∧
      ((tasks.map TodoItem.id).Nodup →
        ((handleDeleteTask tasks taskId).map TodoItem.id).Nodup)) ∧
    (∀ (tasks : List TodoItem) (text : String) (now : Nat),
      trimJs text ≠ "" →
      handleAddTask tasks text now =
        tasks ++ [{ id := "task-" ++ toString now, text := trimJs text,
                    completed := false }] ∧
      (("task-" ++ toString now) ∉ tasks.map TodoItem.id →
        (tasks.map TodoItem.id).Nodup →
        ((handleAddTask tasks text now).map TodoItem.id).Nodup)) := by
  refine ⟨?_, ?_, ?_, ?_⟩
  · intro tasks taskId
    unfold handleToggleComplete
    rw [List.map_map]
    apply List.map_congr_left
    intro a _
    by_cases h : a.id = taskId <;> simp [h]
  · intro tasks eid etext
    unfold handleEditTask
    cases eid with
    | none => rfl
    | some tid =>
      split_ifs with h
      · rfl
      · rw [List.map_map]
        apply List.map_congr_left
        intro a _
        by_cases h2 : a.id = tid <;> simp [h2]
  · intro tasks taskId
    have hsub : ((handleDeleteTask tasks taskId).map TodoItem.id).Sublist
        (tasks.map TodoItem.id) :=
      List.Sublist.map TodoItem.id (List.filter_sublist tasks)
    exact ⟨hsub, fun hnd => List.Nodup.sublist hsub hnd⟩
  · intro tasks text now htrim
    have heq : handleAddTask tasks text now =
        tasks ++ [{ id := "task-" ++ toString now, text := trimJs text,
                    completed := false }] := by
      simp [handleAddTask, htrim]
    refine ⟨heq, ?_⟩
    intro hnotmem hnd
    rw [heq, List.map_append, List.nodup_append]
    refine ⟨hnd, by simp, ?_⟩
    intro x hx hy
    simp at hy
    subst hy
    exact hnotmem hx

/-- Witness for the amended claim C8: adding "b" at timestamp 5 appends the
fresh task at the end. -/
theorem todoListInvariants_witness :
    trimJs ("b") ≠ "" ∧
    handleAddTask [todo0] ("b") 5 =
      [todo0] ++ [{ id := "task-" ++ toString 5, text := trimJs ("b"),
                    completed := false }] :=
  ⟨by decide, (todoListInvariants.2.2.2 [todo0] ("b") 5 (by decide)).1⟩

/-- Claim C10: toggle-complete keeps the list length; position by position
it negates exactly the completed flag of tasks carrying the toggled id and
returns every other task unchanged; and with an id not present in the list
the whole list is returned unchanged. -/
theorem handleToggleComplete_frame (tasks : List TodoItem) (taskId : String) :
    (handleToggleComplete tasks taskId).length = tasks.length ∧
    (∀ i, i < tasks.length →
      (handleToggleComplete tasks taskId).getD i defaultTodo =
        (if (tasks.getD i defaultTodo).id = taskId
         then { tasks.getD i defaultTodo with
                  completed := !(tasks.getD i defaultTodo).completed }
         else tasks.getD i defaultTodo)) ∧
    (taskId ∉ tasks.map TodoItem.id → handleToggleComplete tasks taskId = tasks) := by
  refine ⟨?_, ?_, ?_⟩
  · simp [handleToggleComplete]
  · intro i hi
    have hlen : i < (tasks.map (fun task =>
        if task.id = taskId then { task with completed := !task.completed }
        else task)).length := by simpa
    unfold handleToggleComplete
    rw [List.getD_eq_getElem _ _ hlen, List.getD_eq_getElem _ _ hi]
    rw [List.getElem_map]
  · intro hmem
    unfold handleToggleComplete
    have hcong : ∀ a ∈ tasks,
        (if a.id = taskId then { a with completed := !a.completed } else a) = a := by
      intro a ha
      have hne : a.id ≠ taskId := by
        intro he
        exact hmem (he ▸ List.mem_map_of_mem TodoItem.id ha)
      simp [hne]
    rw [List.map_congr_left hcong]
    simp

/-- Witness for claim C10 at a two-task list. -/
theorem handleToggleComplete_frame_witness :
    (handleToggleComplete [todo0, todo1] ("task-0")).getD 0 defaultTodo =
      { todo0 with completed := !todo0.completed } ∧
    handleToggleComplete [todo0, todo1] ("zzz") = [todo0, todo1] := by
  constructor
  · have h := (handleToggleComplete_frame [todo0, todo1] ("task-0")).2.1 0 (by decide)
    rw [h]
    decide
  · exact (handleToggleComplete_frame [todo0, todo1] ("zzz")).2.2 (by decide)
